import Mathlib

/-!
Shallow embedding of `main.py` (kivy_zbar): the Android camera capture
session (`AndroidCamera`), its surface-readiness callback
(`SurfaceHolderCallback`), the preview-frame buffer recycling
(`_on_preview_frame`), and the zbar decode pipeline
(`ZbarQrcodeDetector`). Each definition is translated line by line from
the Python source; the theorems at the end settle the specification
claims against these definitions.
-/

/-- `android.graphics.ImageFormat.NV21` (the documented Android default
preview format; the source's comment in `_detect_qrcode_frame` relies on
this default). -/
def ImageFormat.NV21 : Nat := 17

/-- `android.graphics.ImageFormat.YV12`. -/
def ImageFormat.YV12 : Nat := 842094169

/-- `android.graphics.ImageFormat.RGB_565`. -/
def ImageFormat.RGB565 : Nat := 4

/-- `ImageFormat.getBitsPerPixel` for the formats that can appear as a
camera preview format (0 for formats that cannot). Only NV21 is ever
reached by this program: the code never calls `setPreviewFormat`. -/
def ImageFormat.getBitsPerPixel (fmt : Nat) : Nat :=
  if fmt = ImageFormat.NV21 then 12
  else if fmt = ImageFormat.YV12 then 12
  else if fmt = ImageFormat.RGB565 then 16
  else 0

/-- Byte length of one callback buffer:
`int(width * height * (ImageFormat.getBitsPerPixel(fmt) / 8.))` in the
source. `bits / 8.` is exact in binary floating point, and the whole
product is exactly representable for every buffer below 2^49 bytes, so
the float truncation coincides with natural-number division. -/
def bufSize (width height bits : Nat) : Nat :=
  width * height * bits / 8

/-- The subset of `android.hardware.Camera$Parameters` this program reads
or writes. -/
structure CameraParams where
  focusMode : String
  rotation : Nat
  orientation : String
  previewWidth : Nat
  previewHeight : Nat
  previewFormat : Nat
deriving DecidableEq

/-- State of one open `android.hardware.Camera` device. `callbackBuffers`
records the byte lengths of the buffers currently in the device's
callback-buffer queue; `startPreviewCount` counts `startPreview` calls. -/
structure CameraDevice where
  params : CameraParams
  displayOrientation : Nat
  callbackBuffers : List Nat
  previewCallbackWithBuffer : Bool
  previewDisplaySet : Bool
  startPreviewCount : Nat
deriving DecidableEq

/-- `Camera.open(index)`: a freshly opened device with Android defaults;
the preview format default is NV21. -/
def Camera.openCamera (_index : Nat) : CameraDevice :=
  { params :=
      { focusMode := "auto"
        rotation := 0
        orientation := "landscape"
        previewWidth := 640
        previewHeight := 480
        previewFormat := ImageFormat.NV21 }
    displayOrientation := 0
    callbackBuffers := []
    previewCallbackWithBuffer := false
    previewDisplaySet := false
    startPreviewCount := 0 }

/-- One call made on the camera device during the `_on_surface_changed`
(beginStreaming) sequence. -/
inductive CamCall
  | setParameters (p : CameraParams)
  | addCallbackBuffer (len : Nat)
  | setPreviewCallbackWithBuffer
  | setPreviewDisplay
  | startPreview
deriving DecidableEq

/-- Whether a camera call is `startPreview`. -/
def CamCall.isStartPreview : CamCall → Bool
  | CamCall.startPreview => true
  | _ => false

/-- The buffer length of an `addCallbackBuffer` call, `none` for the
other calls. -/
def CamCall.bufferLen : CamCall → Option Nat
  | CamCall.addCallbackBuffer n => some n
  | _ => none

/-- `AndroidCamera._on_surface_changed(fmt, width, height)` — the
beginStreaming sequence, translated statement by statement. It runs
unconditionally on every surface-change notification (the code has no
guard): it applies the preview size with the surface dimensions swapped
(`params.setPreviewSize(height, width)`), computes the buffer length
from the (unchanged) preview format, adds two callback buffers of that
length, registers the preview callback, sets the preview display and
starts the preview. The `fmt` argument is ignored, as in the source.
Returns the updated device and the list of calls made on it, in order. -/
def AndroidCamera.onSurfaceChanged (cam : CameraDevice) (_fmt width height : Nat) :
    CameraDevice × List CamCall :=
  let p := { cam.params with previewWidth := height, previewHeight := width }
  let bits := ImageFormat.getBitsPerPixel p.previewFormat
  let len := bufSize width height bits
  let cam2 : CameraDevice :=
    { cam with
      params := p
      callbackBuffers := cam.callbackBuffers ++ [len, len]
      previewCallbackWithBuffer := true
      previewDisplaySet := true
      startPreviewCount := cam.startPreviewCount + 1 }
  (cam2,
    [CamCall.setParameters p,
     CamCall.addCallbackBuffer len,
     CamCall.addCallbackBuffer len,
     CamCall.setPreviewCallbackWithBuffer,
     CamCall.setPreviewDisplay,
     CamCall.startPreview])

/-- `SurfaceHolderCallback.surfaceChanged` forwards every notification
`(fmt, width, height)` unconditionally to the registered callback, which
is `_on_surface_changed`; there is no once-only guard anywhere on this
path. This processes a whole sequence of surface-change notifications,
accumulating the camera calls they make. -/
def processSurfaceNotifications (cam : CameraDevice) :
    List (Nat × Nat × Nat) → CameraDevice × List CamCall
  | [] => (cam, [])
  | e :: rest =>
      let step := AndroidCamera.onSurfaceChanged cam e.1 e.2.1 e.2.2
      let next := processSurfaceNotifications step.1 rest
      (next.1, step.2 ++ next.2)

/-- State of the `AndroidCamera` widget: `_android_camera` (None when no
session is open), whether `_holder.view` is set, and whether the surface
holder callback has been registered. -/
structure AndroidCameraState where
  index : Nat
  androidCamera : Option CameraDevice
  holderView : Bool
  surfaceCallbackRegistered : Bool
deriving DecidableEq

/-- `AndroidCamera.start`: returns immediately if `_android_camera` is
not None; otherwise opens the device, sets focus mode
`'continuous-picture'`, rotation 90, orientation `'portrait'`, display
orientation 90, registers the surface holder callback and attaches the
surface view to the holder. -/
def AndroidCamera.start (s : AndroidCameraState) : AndroidCameraState :=
  match s.androidCamera with
  | some _ => s
  | none =>
      let cam := Camera.openCamera s.index
      let p :=
        { cam.params with
          focusMode := "continuous-picture"
          rotation := 90
          orientation := "portrait" }
      let cam2 := { cam with params := p, displayOrientation := 90 }
      { s with
        androidCamera := some cam2
        holderView := true
        surfaceCallbackRegistered := true }

/-- `AndroidCamera.stop`: returns immediately if `_android_camera` is
None; otherwise clears the preview callback, releases the device, sets
`_android_camera = None` and `_holder.view = None`. -/
def AndroidCamera.stop (s : AndroidCameraState) : AndroidCameraState :=
  match s.androidCamera with
  | none => s
  | some _ => { s with androidCamera := none, holderView := false }

/-- The camera device exactly as configured by `AndroidCamera.start`
(before any surface notification has arrived). -/
def startedCameraDevice : CameraDevice :=
  let cam := Camera.openCamera 0
  { cam with
    params :=
      { cam.params with
        focusMode := "continuous-picture"
        rotation := 90
        orientation := "portrait" }
    displayOrientation := 90 }

/-- Events inside `AndroidCamera._on_preview_frame`: the `dispatch` call
that runs the bound frame handler to completion, and the
`addCallbackBuffer(data)` call that resubmits the consumed buffer. -/
inductive FrameEvent
  | dispatchHandler
  | addCallbackBuffer
deriving DecidableEq

/-- Whether a frame event is the buffer resubmission. -/
def FrameEvent.isAddBuffer : FrameEvent → Bool
  | FrameEvent.addCallbackBuffer => true
  | _ => false

/-- `AndroidCamera._on_preview_frame(camera, data)`, line by line: first
`self.dispatch('on_preview_frame', camera, data)` runs the bound handler
synchronously on the delivered bytes; only after it returns does
`self._android_camera.addCallbackBuffer(data)` run. There is no
try/finally, so a handler exception propagates out of the method and the
resubmission statement never executes. `handlerResult` is the outcome of
the dispatched handler; the result is the ordered event list and the
method's own outcome. -/
def AndroidCamera.onPreviewFrame (handlerResult : Except String Unit) :
    List FrameEvent × Except String Unit :=
  match handlerResult with
  | Except.ok _ =>
      ([FrameEvent.dispatchHandler, FrameEvent.addCallbackBuffer], Except.ok ())
  | Except.error e => ([FrameEvent.dispatchHandler], Except.error e)

/-- Number of buffers in the device's callback queue after a run of
delivered frames, starting from `pool` available buffers: each delivery
hands one buffer to `_on_preview_frame`, which re-adds it only when the
dispatched handler returned normally (the Java/python bridge swallows
the printed exception, so the session continues without that buffer). -/
def poolAfterFrames (pool : Nat) : List (Except String Unit) → Nat
  | [] => pool
  | r :: rest =>
      poolAfterFrames
        (pool - 1 + (AndroidCamera.onPreviewFrame r).1.countP
          (fun e => e.isAddBuffer)) rest

/-- Event trace of `_on_preview_frame` across a list of delivered
frames, one outcome per dispatched handler run. -/
def sessionFrameTrace : List (Except String Unit) → List FrameEvent
  | [] => []
  | r :: rest => (AndroidCamera.onPreviewFrame r).1 ++ sessionFrameTrace rest

/-- `net.sourceforge.zbar.Config.ENABLE`. -/
def Config.ENABLE : Nat := 0

/-- `net.sourceforge.zbar.Config.X_DENSITY` (0x100). -/
def Config.X_DENSITY : Nat := 256

/-- `net.sourceforge.zbar.Config.Y_DENSITY` (0x101). -/
def Config.Y_DENSITY : Nat := 257

/-- `net.sourceforge.zbar.Symbol.QRCODE`. -/
def Symbol.QRCODE : Nat := 64

/-- A call made on the zbar `ImageScanner`. -/
inductive ScannerCall
  | setConfig (symbology : Nat) (cfg : Nat) (value : Nat)
  | scanImageCall
deriving DecidableEq

/-- Whether a scanner call is a `setConfig` (decoder configuration). -/
def ScannerCall.isSetConfig : ScannerCall → Bool
  | ScannerCall.setConfig _ _ _ => true
  | _ => false

/-- The scanner calls issued by `ZbarQrcodeDetector.__init__`, in source
order: `setConfig(0, ENABLE, 0)`, `setConfig(Symbol.QRCODE, ENABLE, 1)`,
`setConfig(0, X_DENSITY, 3)`, `setConfig(0, Y_DENSITY, 3)`. -/
def detectorInitScannerCalls : List ScannerCall :=
  [ScannerCall.setConfig 0 Config.ENABLE 0,
   ScannerCall.setConfig Symbol.QRCODE Config.ENABLE 1,
   ScannerCall.setConfig 0 Config.X_DENSITY 3,
   ScannerCall.setConfig 0 Config.Y_DENSITY 3]

/-- The scanner calls issued per frame by `_detect_qrcode_frame`: one
`scanImage`, no `setConfig`. -/
def detectFrameScannerCalls : List ScannerCall :=
  [ScannerCall.scanImageCall]

/-- All scanner calls of a detector session that constructs the detector
and then decodes `n` frames. -/
def sessionScannerCalls : Nat → List ScannerCall
  | 0 => detectorInitScannerCalls
  | n + 1 => sessionScannerCalls n ++ detectFrameScannerCalls

/-- A decoded symbol as exposed by the zbar `Symbol` object: `getType`,
`getData`, `getQuality`, `getCount`, `getBounds`. -/
structure ZSymbol where
  type : Nat
  data : String
  quality : Int
  count : Int
  bounds : List Int
deriving DecidableEq

/-- The `Qrcode` namedtuple
`('type', 'data', 'bounds', 'quality', 'count')`. -/
structure Qrcode where
  type : Nat
  data : String
  bounds : List Int
  quality : Int
  count : Int
deriving DecidableEq

/-- The record built per symbol in the iteration loop of
`_detect_qrcode_frame`: each field is taken from the corresponding
getter of the zbar symbol object. -/
def toQrcode (s : ZSymbol) : Qrcode :=
  { type := s.type
    data := s.data
    bounds := s.bounds
    quality := s.quality
    count := s.count }

/-- `ImageScanner.scanImage` returns the number of symbols decoded from
the image; the image's symbol collection holds exactly those symbols. -/
def scanImage (syms : List ZSymbol) : Nat := syms.length

/-- `ZbarQrcodeDetector._detect_qrcode_frame` acting on the published
`symbols` property. `prevSymbols` is the value of `self.symbols` before
the call and `syms` the image's symbol collection in iterator order.
When `scanImage` returns 0 the method returns early, leaving
`self.symbols` untouched; otherwise it builds one `Qrcode` per symbol in
iterator order and assigns the new list to `self.symbols`. -/
def detectQrcodeFrame (prevSymbols : List Qrcode) (syms : List ZSymbol) :
    List Qrcode :=
  if scanImage syms = 0 then prevSymbols
  else syms.map toQrcode

/-- State of the `ZbarQrcodeDetector` widget: the published `symbols`
list and the embedded `AndroidCamera`. -/
structure DetectorState where
  symbols : List Qrcode
  camera : AndroidCameraState
deriving DecidableEq

/-- `ZbarQrcodeDetector.stop`: assigns `self.symbols = []`, then calls
`self._camera.stop()`. -/
def ZbarQrcodeDetector.stop (s : DetectorState) : DetectorState :=
  let s1 := { s with symbols := ([] : List Qrcode) }
  { s1 with camera := AndroidCamera.stop s1.camera }

/-- A concrete decoded symbol used as the instance `A` in scenarios. -/
def helloSymbol : ZSymbol :=
  { type := Symbol.QRCODE
    data := "HELLO"
    quality := 1
    count := 1
    bounds := [0, 0, 10, 10] }

/-- C1, as stated, is false: a decode pass that detects zero symbols
returns early and does not replace the published list with the empty
list. After two successive decode calls producing `[A]` then `[]`, the
published state is still `[A]`, not `[]`. -/
theorem c1_counterexample :
    detectQrcodeFrame (detectQrcodeFrame [] [helloSymbol]) [] ≠
      ([] : List Qrcode) := by
  decide

/-- C1 (amended): a decode pass with a nonzero symbol count fully
replaces the published list, independently of its previous value; a
decode pass that detects zero symbols leaves the published list
unchanged, so after two successive decode calls producing `[A]` then
zero symbols, the published state is `[A]`. -/
theorem c1_publication_replaces (prev : List Qrcode) (a : ZSymbol)
    (rest : List ZSymbol) :
    detectQrcodeFrame prev (a :: rest) = (a :: rest).map toQrcode ∧
    detectQrcodeFrame (detectQrcodeFrame prev (a :: rest)) [] =
      (a :: rest).map toQrcode := by
  constructor
  · simp [detectQrcodeFrame, scanImage]
  · simp [detectQrcodeFrame, scanImage]

/-- C2, as stated, is false: there is no once-per-session gate on the
surface-change path, so a second surface-change notification after the
session is streaming runs the whole beginStreaming sequence again —
after two notifications `startPreview` has been invoked twice, not at
most once. -/
theorem c2_counterexample :
    ¬ ((processSurfaceNotifications startedCameraDevice
        [(4, 960, 720), (4, 960, 720)]).2.countP
          (fun e => e.isStartPreview) ≤ 1) := by
  decide

/-- C2 (amended): every surface-change notification re-invokes the full
beginStreaming sequence — across any sequence of notifications,
`startPreview` is invoked exactly once per notification, not at most
once per session. -/
theorem c2_every_notification_restreams (cam : CameraDevice)
    (evts : List (Nat × Nat × Nat)) :
    (processSurfaceNotifications cam evts).2.countP
      (fun e => e.isStartPreview) = evts.length := by
  induction evts generalizing cam with
  | nil => rfl
  | cons e rest ih =>
      have h1 : (AndroidCamera.onSurfaceChanged cam e.1 e.2.1 e.2.2).2.countP
          (fun c => c.isStartPreview) = 1 := rfl
      show List.countP (fun e => e.isStartPreview)
          ((AndroidCamera.onSurfaceChanged cam e.1 e.2.1 e.2.2).2 ++
            (processSurfaceNotifications
              (AndroidCamera.onSurfaceChanged cam e.1 e.2.1 e.2.2).1 rest).2) =
        rest.length + 1
      rw [List.countP_append, h1, ih]
      omega

/-- C3: on each beginStreaming run, exactly two callback buffers are
submitted before `startPreview`, each of byte length
`width * height * bitsPerPixel / 8` for the device's preview format
(the float division and int truncation of the source coincide with this
natural-number division), and `startPreview` is invoked exactly once. -/
theorem c3_two_buffers_before_preview (cam : CameraDevice)
    (fmt w h : Nat) :
    (((AndroidCamera.onSurfaceChanged cam fmt w h).2.takeWhile
        (fun e => ! e.isStartPreview)).filterMap CamCall.bufferLen =
      [w * h * ImageFormat.getBitsPerPixel cam.params.previewFormat / 8,
       w * h * ImageFormat.getBitsPerPixel cam.params.previewFormat / 8]) ∧
    (AndroidCamera.onSurfaceChanged cam fmt w h).2.countP
      (fun e => e.isStartPreview) = 1 := by
  constructor
  · rfl
  · rfl

/-- Across a session in which every dispatched handler returned
normally, the number of buffer resubmissions equals the number of
delivered frames. -/
theorem sessionFrameTrace_ok_count (outcomes : List (Except String Unit)) :
    (∀ r ∈ outcomes, r = Except.ok ()) →
    (sessionFrameTrace outcomes).countP (fun e => e.isAddBuffer) =
      outcomes.length := by
  induction outcomes with
  | nil => intro _; rfl
  | cons r rest ih =>
      intro h
      have hr : r = Except.ok () := h r (List.mem_cons_self r rest)
      subst hr
      have h1 : (AndroidCamera.onPreviewFrame (Except.ok ())).1.countP
          (fun e => e.isAddBuffer) = 1 := rfl
      show List.countP (fun e => e.isAddBuffer)
          ((AndroidCamera.onPreviewFrame (Except.ok ())).1 ++
            sessionFrameTrace rest) = rest.length + 1
      rw [List.countP_append, h1,
        ih (fun r hr => h r (List.mem_cons_of_mem _ hr))]
      omega

/-- C4: for delivered frames whose handler returns normally, the
consumed buffer is resubmitted exactly once per frame — across a session
of normally handled frames the number of `addCallbackBuffer`
resubmissions equals the number of delivered frames — and the
resubmission happens only after the dispatched handler has finished: the
only event before the resubmission in a frame's trace is the completed
handler dispatch. -/
theorem c4_resubmit_once_after_handler (outcomes : List (Except String Unit))
    (h : ∀ r ∈ outcomes, r = Except.ok ()) :
    (sessionFrameTrace outcomes).countP (fun e => e.isAddBuffer) =
      outcomes.length ∧
    (AndroidCamera.onPreviewFrame (Except.ok ())).1.takeWhile
      (fun e => ! e.isAddBuffer) = [FrameEvent.dispatchHandler] ∧
    (AndroidCamera.onPreviewFrame (Except.ok ())).1.countP
      (fun e => e.isAddBuffer) = 1 :=
  ⟨sessionFrameTrace_ok_count outcomes h, rfl, rfl⟩

/-- Witness for C4 at a concrete two-frame session. -/
theorem c4_resubmit_once_after_handler_witness :
    (sessionFrameTrace [Except.ok (), Except.ok ()]).countP
      (fun e => e.isAddBuffer) = 2 ∧
    (AndroidCamera.onPreviewFrame (Except.ok ())).1.takeWhile
      (fun e => ! e.isAddBuffer) = [FrameEvent.dispatchHandler] := by
  have h := c4_resubmit_once_after_handler [Except.ok (), Except.ok ()]
    (by
      intro r hr
      rcases List.mem_cons.mp hr with h1 | h1
      · exact h1
      · rw [List.mem_singleton] at h1; exact h1)
  exact ⟨h.1, h.2.1⟩

/-- C5: when the decoder reports a nonzero symbol count, the published
list is the decoder's symbol collection mapped one-to-one in iterator
order, and each record carries exactly the five fields type, data,
bounds, quality and count of the corresponding decoder symbol. -/
theorem c5_symbols_in_iterator_order (prev : List Qrcode)
    (syms : List ZSymbol) (h : syms ≠ []) :
    detectQrcodeFrame prev syms = syms.map toQrcode ∧
    ∀ s : ZSymbol,
      (toQrcode s).type = s.type ∧ (toQrcode s).data = s.data ∧
      (toQrcode s).bounds = s.bounds ∧ (toQrcode s).quality = s.quality ∧
      (toQrcode s).count = s.count := by
  constructor
  · have hl : scanImage syms ≠ 0 := by
      simpa [scanImage, List.length_eq_zero] using h
    simp [detectQrcodeFrame, hl]
  · intro s
    exact ⟨rfl, rfl, rfl, rfl, rfl⟩

/-- Witness for C5 at a concrete one-symbol frame. -/
theorem c5_symbols_in_iterator_order_witness :
    ([helloSymbol] : List ZSymbol) ≠ [] ∧
    detectQrcodeFrame [] [helloSymbol] = [toQrcode helloSymbol] :=
  ⟨by decide, (c5_symbols_in_iterator_order [] [helloSymbol] (by decide)).1⟩

/-- C6: over a session with any number of decoded frames, the decoder
configuration calls are exactly the four issued at detector
construction, in order — disable all symbologies globally, enable
exactly the QR-code symbology, set X density and Y density to 3 — and
the per-frame decode path issues no `setConfig` at all. -/
theorem c6_scanner_configured_once (n : Nat) :
    (sessionScannerCalls n).filter (fun c => c.isSetConfig) =
      [ScannerCall.setConfig 0 Config.ENABLE 0,
       ScannerCall.setConfig Symbol.QRCODE Config.ENABLE 1,
       ScannerCall.setConfig 0 Config.X_DENSITY 3,
       ScannerCall.setConfig 0 Config.Y_DENSITY 3] ∧
    detectFrameScannerCalls.filter (fun c => c.isSetConfig) = [] := by
  refine ⟨?_, rfl⟩
  induction n with
  | zero => rfl
  | succ m ih =>
      show (sessionScannerCalls m ++ detectFrameScannerCalls).filter
          (fun c => c.isSetConfig) = _
      rw [List.filter_append, ih]
      rfl

/-- C7: `_on_surface_changed` applies the preview size with the surface
dimensions swapped — for any camera state the configured preview size
becomes (height, width) — and in particular on the freshly started
camera a surface report of width 960, height 720 yields the preview
geometry 720 by 960 in the NV21 preview format. -/
theorem c7_preview_size_swapped (cam : CameraDevice) (fmt w h : Nat) :
    ((AndroidCamera.onSurfaceChanged cam fmt w h).1.params.previewWidth
        = h ∧
      (AndroidCamera.onSurfaceChanged cam fmt w h).1.params.previewHeight
        = w) ∧
    ((AndroidCamera.onSurfaceChanged
        startedCameraDevice fmt 960 720).1.params.previewWidth = 720 ∧
      (AndroidCamera.onSurfaceChanged
        startedCameraDevice fmt 960 720).1.params.previewHeight = 960 ∧
      (AndroidCamera.onSurfaceChanged
        startedCameraDevice fmt 960 720).1.params.previewFormat =
          ImageFormat.NV21) :=
  ⟨⟨rfl, rfl⟩, rfl, rfl, rfl⟩

/-- C8: redundant lifecycle calls are no-ops that leave the state
unchanged — `start` while a session is already open returns the state
unchanged, `stop` while the session is already closed returns the state
unchanged, and `stop` is idempotent. -/
theorem c8_lifecycle_noops (s : AndroidCameraState) :
    (s.androidCamera.isSome = true → AndroidCamera.start s = s) ∧
    (s.androidCamera = none → AndroidCamera.stop s = s) ∧
    AndroidCamera.stop (AndroidCamera.stop s) = AndroidCamera.stop s := by
  refine ⟨?_, ?_, ?_⟩
  · intro h
    cases hc : s.androidCamera with
    | none => rw [hc] at h; simp at h
    | some c => simp [AndroidCamera.start, hc]
  · intro h
    simp [AndroidCamera.stop, h]
  · cases hc : s.androidCamera with
    | none => simp [AndroidCamera.stop, hc]
    | some c => simp [AndroidCamera.stop, hc]

/-- Witness for C8: on a concrete closed state, `stop` is a no-op, and
on the started state a second `start` is a no-op. -/
theorem c8_lifecycle_noops_witness :
    AndroidCamera.start (AndroidCamera.start
      ⟨0, none, false, false⟩) =
      AndroidCamera.start ⟨0, none, false, false⟩ ∧
    AndroidCamera.stop (⟨0, none, false, false⟩ : AndroidCameraState) =
      ⟨0, none, false, false⟩ :=
  ⟨(c8_lifecycle_noops (AndroidCamera.start ⟨0, none, false, false⟩)).1 rfl,
   (c8_lifecycle_noops ⟨0, none, false, false⟩).2.1 rfl⟩

/-- Over frames whose handlers all returned normally, the buffer pool is
preserved (each delivery consumes one buffer and resubmits it). -/
theorem poolAfterFrames_ok (outcomes : List (Except String Unit)) :
    ∀ pool : Nat, 1 ≤ pool → (∀ r ∈ outcomes, r = Except.ok ()) →
    poolAfterFrames pool outcomes = pool := by
  induction outcomes with
  | nil => intro pool _ _; rfl
  | cons r rest ih =>
      intro pool hp h
      have hr : r = Except.ok () := h r (List.mem_cons_self r rest)
      subst hr
      have h1 : (AndroidCamera.onPreviewFrame (Except.ok ())).1.countP
          (fun e => e.isAddBuffer) = 1 := rfl
      show poolAfterFrames
          (pool - 1 + (AndroidCamera.onPreviewFrame (Except.ok ())).1.countP
            (fun e => e.isAddBuffer)) rest = pool
      rw [h1]
      have hpe : pool - 1 + 1 = pool := by omega
      rw [hpe]
      exact ih pool hp (fun r hr => h r (List.mem_cons_of_mem _ hr))

/-- The buffer pool after an appended run of frames is the pool after
the first run, fed through the second. -/
theorem poolAfterFrames_append (l1 l2 : List (Except String Unit)) :
    ∀ pool, poolAfterFrames pool (l1 ++ l2) =
      poolAfterFrames (poolAfterFrames pool l1) l2 := by
  induction l1 with
  | nil => intro pool; rfl
  | cons r rest ih => intro pool; exact ih _

/-- C9: if the dispatched handler raises for a delivered frame, that
frame's buffer is never resubmitted — its event trace contains no
`addCallbackBuffer` and the exception propagates out of
`_on_preview_frame` — and in a session of otherwise normally handled
frames, a single failing frame permanently reduces the two-buffer pool
to one for the rest of the session. -/
theorem c9_exception_loses_buffer (e : String)
    (pre post : List (Except String Unit))
    (hpre : ∀ r ∈ pre, r = Except.ok ())
    (hpost : ∀ r ∈ post, r = Except.ok ()) :
    (AndroidCamera.onPreviewFrame (Except.error e)).1.countP
      (fun ev => ev.isAddBuffer) = 0 ∧
    (AndroidCamera.onPreviewFrame (Except.error e)).2 = Except.error e ∧
    poolAfterFrames 2 (pre ++ Except.error e :: post) = 1 := by
  refine ⟨rfl, rfl, ?_⟩
  rw [poolAfterFrames_append, poolAfterFrames_ok pre 2 (by omega) hpre]
  show poolAfterFrames
      (2 - 1 + (AndroidCamera.onPreviewFrame (Except.error e)).1.countP
        (fun ev => ev.isAddBuffer)) post = 1
  have h0 : (AndroidCamera.onPreviewFrame (Except.error e)).1.countP
      (fun ev => ev.isAddBuffer) = 0 := rfl
  rw [h0]
  exact poolAfterFrames_ok post 1 (by omega) hpost

/-- Witness for C9 at a concrete three-frame session whose middle
handler raises. -/
theorem c9_exception_loses_buffer_witness :
    (AndroidCamera.onPreviewFrame (Except.error "boom")).1.countP
      (fun ev => ev.isAddBuffer) = 0 ∧
    poolAfterFrames 2
      [Except.ok (), Except.error "boom", Except.ok ()] = 1 := by
  have h := c9_exception_loses_buffer "boom" [Except.ok ()] [Except.ok ()]
    (by intro r hr; rw [List.mem_singleton] at hr; exact hr)
    (by intro r hr; rw [List.mem_singleton] at hr; exact hr)
  exact ⟨h.1, h.2.2⟩

/-- C10: after `ZbarQrcodeDetector.stop` returns, the published symbols
list is the empty list, regardless of what the last decode pass
published, and the embedded camera has been stopped. -/
theorem c10_stop_clears_symbols (s : DetectorState) :
    (ZbarQrcodeDetector.stop s).symbols = [] ∧
    (ZbarQrcodeDetector.stop s).camera = AndroidCamera.stop s.camera :=
  ⟨rfl, rfl⟩
